import Mathlib

set_option autoImplicit false

/-!
Verification of the OneWise backend real-time collaboration core.

This file gives a shallow embedding of the TypeScript source:

* `src/services/session.ts` — the participant state machine over the
  relational store (sessions, participants, messages, code snapshots).
  The store is modelled as explicit lists of rows; every service
  function takes the store and returns an `Except HttpError` outcome
  paired with the resulting store.  Postgrest adapter faults on writes
  are modelled by explicit fault-injection booleans checked exactly
  where the source checks the `error` field of a write; reads over the
  pure list model are deterministic and cannot fault, so the
  corresponding `if (error) throw 500` branches of the source are
  vacuous in the model.
* `src/services/codeRunner.ts` — the execution sandbox.  The
  filesystem is modelled as the list of existing ephemeral directories;
  toolchain invocations are modelled by an outcome oracle
  (`ExecOutcome`), and the wall-clock is a parameter.
* the socket handlers of the gateway file (chat:message, code:update,
  code:run) — each is a pure function from connection state, store and
  payload to an acknowledgement, the resulting store and the list of
  room broadcasts and sender-directed error events.
-/

namespace OneWise

/-- The classified error thrown by every failing service operation
(`HttpError` in `src/utils/httpError.ts`): a numeric status and a message. -/
structure HttpError where
  status : Nat
  message : String
  deriving Repr, DecidableEq

/-- Opaque JSON metadata, modelled as an association list. -/
abbrev JsonRecord := List (String × String)

/-- A row of `session_participants`.  Timestamps are abstract `Nat` ticks;
`kicked_at` is nullable. -/
structure Participant where
  session_id : String
  user_id : String
  role : String
  can_edit : Bool
  can_share_screen : Bool
  joined_at : Nat
  kicked_at : Option Nat
  deriving Repr, DecidableEq

/-- A row of `mentorship_sessions` (the fields the core reads or writes;
`created_at` is never consulted by the code under verification and is omitted). -/
structure Session where
  id : String
  title : String
  status : String
  scheduled_at : Option String
  duration_minutes : Option Nat
  created_by : String
  summary : Option String
  invite_code : String
  allow_collab : Bool
  allow_chat : Bool
  allow_video : Bool
  metadata : JsonRecord
  deriving Repr, DecidableEq

/-- A row of `session_messages` (append-only). -/
structure Message where
  session_id : String
  author_id : String
  content : String
  deriving Repr, DecidableEq

/-- A row of `session_code_snapshots` (append-only). -/
structure CodeSnapshot where
  session_id : String
  author_id : String
  language : String
  code : String
  deriving Repr, DecidableEq

/-- The relational store. -/
structure Store where
  sessions : List Session
  participants : List Participant
  messages : List Message
  snapshots : List CodeSnapshot
  deriving Repr, DecidableEq

/-- The `select ... eq(session_id) eq(user_id) maybeSingle()` lookup used by
the participant state machine.  The store invariant keeps at most one row per
(session, user) pair, so the first match is the row. -/
def findParticipant (st : Store) (sessionId userId : String) : Option Participant :=
  st.participants.find? (fun p => p.session_id == sessionId && p.user_id == userId)

/-- `ensureSessionParticipant` (session.ts lines 75-96): the single admission
gate.  No row for the pair: 403; row with `kicked_at` set: 403; otherwise the
row is returned.  Read-only, so the store is returned unchanged. -/
def ensureSessionParticipant (st : Store) (userId sessionId : String) :
    Except HttpError Participant × Store :=
  match findParticipant st sessionId userId with
  | none => (.error ⟨403, "You are not a participant in this session"⟩, st)
  | some p =>
    match p.kicked_at with
    | some _ => (.error ⟨403, "You have been removed from this session"⟩, st)
    | none => (.ok p, st)

/-- `sanitizeMetadata` (session.ts line 149): `metadata ?? {}`. -/
def sanitizeMetadata (metadata : Option JsonRecord) : JsonRecord :=
  metadata.getD []

/-- Modelled from the spec: the database schema (and with it the column
defaults applied to participant rows inserted without explicit permission
flags, and the initial `status` of a fresh session row) is not under `src/`.
The spec fixes the status alphabet starting at `scheduled` but leaves the
participant flag defaults open; no claim below depends on these values. -/
def studentDefaultCanEdit : Bool := false

/-- Modelled from the spec: see `studentDefaultCanEdit`. -/
def studentDefaultCanShareScreen : Bool := false

/-- Modelled from the spec: initial status of a freshly inserted session row;
see `studentDefaultCanEdit`. -/
def newSessionStatus : String := "scheduled"

/-- `createSession` input (session.ts lines 17-27).  `Option` marks the
optional fields (`undefined` when absent). -/
structure SessionCreateInput where
  title : String
  summary : Option String
  scheduled_at : Option String
  duration_minutes : Option Nat
  allow_collab : Option Bool
  allow_chat : Option Bool
  allow_video : Option Bool
  metadata : Option JsonRecord
  participantUserIds : Option (List String)
  deriving Repr, DecidableEq

/-- Fault injection for the two writes in `createSession`: the session insert
and the bulk participant insert. -/
structure CreateFaults where
  sessionInsertFails : Bool
  participantInsertFails : Bool
  deriving Repr, DecidableEq

/-- First-occurrence deduplication, the order and multiplicity semantics of
`Array.from(new Set(xs))`. -/
def dedupFirst : List String → List String
  | [] => []
  | x :: xs => x :: dedupFirst (xs.filter (fun y => y != x))
termination_by l => l.length
decreasing_by
  simp only [List.length_cons]
  exact Nat.lt_succ_of_le (List.length_filter_le _ _)

/-- The session row payload built by `createSession` (session.ts lines
170-180), completed with the store-generated id and invite code. -/
def newSessionRow (mentorId : String) (input : SessionCreateInput)
    (newId newInviteCode : String) : Session :=
  { id := newId
    title := input.title
    status := newSessionStatus
    scheduled_at := input.scheduled_at
    duration_minutes := input.duration_minutes
    created_by := mentorId
    summary := input.summary
    invite_code := newInviteCode
    allow_collab := input.allow_collab.getD true
    allow_chat := input.allow_chat.getD true
    allow_video := input.allow_video.getD true
    metadata := sanitizeMetadata input.metadata }

/-- The owner participant row of `createSession` (session.ts lines 195-201):
role mentor, both permission flags true. -/
def ownerParticipantRow (newId mentorId : String) (now : Nat) : Participant :=
  { session_id := newId, user_id := mentorId, role := "mentor",
    can_edit := true, can_share_screen := true,
    joined_at := now, kicked_at := none }

/-- A student participant row of `createSession` (session.ts lines 202-206);
the insert supplies only the keys and the role, the flags are the schema
defaults. -/
def studentParticipantRow (newId uid : String) (now : Nat) : Participant :=
  { session_id := newId, user_id := uid, role := "student",
    can_edit := studentDefaultCanEdit,
    can_share_screen := studentDefaultCanShareScreen,
    joined_at := now, kicked_at := none }

/-- The deduplicated requested student ids of `createSession` (session.ts
line 192): falsy (empty) ids and the owner are dropped, then first-occurrence
deduplication. -/
def uniqueStudentIds (mentorId : String) (input : SessionCreateInput) : List String :=
  dedupFirst ((input.participantUserIds.getD []).filter
    (fun id => id != "" && id != mentorId))

/-- `createSession` (session.ts lines 169-217).  The generated session id and
invite code come from the store and are passed in as parameters; `now` is the
row timestamp.  Steps: insert the session row; build the participant rows
(the owner as mentor with both flags true, plus one student row per requested
id after dropping falsy ids and the owner and deduplicating); bulk-insert
them; on participant-insert failure delete the session row (compensating
rollback) and fail 500. -/
def createSession (st : Store) (mentorId : String) (input : SessionCreateInput)
    (newId newInviteCode : String) (now : Nat) (faults : CreateFaults) :
    Except HttpError Session × Store :=
  if faults.sessionInsertFails then
    (.error ⟨500, "Unable to create session"⟩, st)
  else
    let session := newSessionRow mentorId input newId newInviteCode
    let st1 : Store := { st with sessions := st.sessions ++ [session] }
    let participantRows : List Participant :=
      ownerParticipantRow newId mentorId now ::
        (uniqueStudentIds mentorId input).map (fun uid => studentParticipantRow newId uid now)
    if faults.participantInsertFails then
      (.error ⟨500, "Unable to attach participants"⟩,
        { st1 with sessions := st1.sessions.filter (fun s => s.id != newId) })
    else
      (.ok session,
        { st1 with participants := st1.participants ++ participantRows })

/-- `joinSessionByCode` (session.ts lines 219-266).  Lookup by invite code
(404 if none); terminal status check (400); existing kicked membership (403);
existing non-kicked membership: idempotent no-op; otherwise insert one row
whose role is mentor iff the caller is the creator. -/
def joinSessionByCode (st : Store) (userId inviteCode : String) (now : Nat)
    (insertFails : Bool) : Except HttpError Session × Store :=
  match st.sessions.find? (fun s => s.invite_code == inviteCode) with
  | none => (.error ⟨404, "No session found for that code"⟩, st)
  | some session =>
    if session.status == "completed" || session.status == "cancelled" then
      (.error ⟨400, "This session is no longer accepting participants"⟩, st)
    else
      match findParticipant st session.id userId with
      | some existing =>
        match existing.kicked_at with
        | some _ => (.error ⟨403, "You have been removed from this session"⟩, st)
        | none => (.ok session, st)
      | none =>
        if insertFails then
          (.error ⟨500, "Unable to join session"⟩, st)
        else
          (.ok session,
            { st with participants := st.participants ++
              [{ session_id := session.id, user_id := userId,
                 role := if userId == session.created_by then "mentor" else "student",
                 can_edit := studentDefaultCanEdit,
                 can_share_screen := studentDefaultCanShareScreen,
                 joined_at := now, kicked_at := none }] })

/-- `updateSessionSettings` input (session.ts lines 29-39): every field
optional, the nullable ones doubly so (`undefined` vs `null`). -/
structure SessionUpdateInput where
  title : Option String
  summary : Option (Option String)
  scheduled_at : Option (Option String)
  duration_minutes : Option (Option Nat)
  status : Option String
  allow_collab : Option Bool
  allow_chat : Option Bool
  allow_video : Option Bool
  metadata : Option (Option JsonRecord)
  deriving Repr, DecidableEq

/-- The patch object built field-by-field in `updateSessionSettings`
(session.ts lines 269-279); a `none` field was not supplied.  `metadata`,
when supplied, has already passed through `sanitizeMetadata`. -/
structure SessionPatch where
  title : Option String
  summary : Option (Option String)
  scheduled_at : Option (Option String)
  duration_minutes : Option (Option Nat)
  status : Option String
  allow_collab : Option Bool
  allow_chat : Option Bool
  allow_video : Option Bool
  metadata : Option JsonRecord
  deriving Repr, DecidableEq

/-- The `if (updates.x !== undefined) patch.x = ...` ladder of
session.ts lines 271-279. -/
def buildSessionPatch (updates : SessionUpdateInput) : SessionPatch :=
  { title := updates.title
    summary := updates.summary
    scheduled_at := updates.scheduled_at
    duration_minutes := updates.duration_minutes
    status := updates.status
    allow_collab := updates.allow_collab
    allow_chat := updates.allow_chat
    allow_video := updates.allow_video
    metadata := updates.metadata.map sanitizeMetadata }

/-- `Object.keys(patch).length === 0`: no field was supplied. -/
def SessionPatch.isEmpty (p : SessionPatch) : Bool :=
  p.title.isNone && p.summary.isNone && p.scheduled_at.isNone &&
  p.duration_minutes.isNone && p.status.isNone && p.allow_collab.isNone &&
  p.allow_chat.isNone && p.allow_video.isNone && p.metadata.isNone

/-- The row update performed by the store: supplied fields overwrite, omitted
fields are untouched. -/
def applySessionPatch (s : Session) (p : SessionPatch) : Session :=
  { s with
    title := p.title.getD s.title
    summary := p.summary.getD s.summary
    scheduled_at := p.scheduled_at.getD s.scheduled_at
    duration_minutes := p.duration_minutes.getD s.duration_minutes
    status := p.status.getD s.status
    allow_collab := p.allow_collab.getD s.allow_collab
    allow_chat := p.allow_chat.getD s.allow_chat
    allow_video := p.allow_video.getD s.allow_video
    metadata := p.metadata.getD s.metadata }

/-- `updateSessionSettings` (session.ts lines 268-302).  Empty patch: 400
before any store access.  The update itself filters on both the session id
and `created_by = mentorId` (ownership applied at the store level), so a
session owned by someone else yields no updated row and the function fails
404 — not 403. -/
def updateSessionSettings (st : Store) (mentorId sessionId : String)
    (updates : SessionUpdateInput) : Except HttpError Session × Store :=
  let patch := buildSessionPatch updates
  if patch.isEmpty then
    (.error ⟨400, "No updates were provided"⟩, st)
  else
    match st.sessions.find? (fun s => s.id == sessionId && s.created_by == mentorId) with
    | none =>
      (.error ⟨404, "Session not found or you do not have permission to update it"⟩, st)
    | some s =>
      (.ok (applySessionPatch s patch),
        { st with sessions := st.sessions.map (fun t =>
            if t.id == sessionId && t.created_by == mentorId then
              applySessionPatch t patch
            else t) })

/-- `ensureSessionExistsWithOwner` (session.ts lines 151-167): load the
session row or fail 404. -/
def ensureSessionExistsWithOwner (st : Store) (sessionId : String) :
    Except HttpError Session :=
  match st.sessions.find? (fun s => s.id == sessionId) with
  | none => .error ⟨404, "Session not found"⟩
  | some s => .ok s

/-- The filter of the kick update: same session, target user, not yet kicked
(`is kicked_at null`). -/
def kickTarget (sessionId targetUserId : String) (p : Participant) : Bool :=
  p.session_id == sessionId && p.user_id == targetUserId && p.kicked_at.isNone

/-- `kickParticipant` (session.ts lines 304-337): only the creator may kick
(403), never themselves (400); the update sets `kicked_at` and forces both
permission flags false, filtered to rows not already kicked, and an empty
update — row absent or already kicked alike — fails 404. -/
def kickParticipant (st : Store) (mentorId sessionId targetUserId : String)
    (now : Nat) : Except HttpError Bool × Store :=
  match ensureSessionExistsWithOwner st sessionId with
  | .error e => (.error e, st)
  | .ok session =>
    if session.created_by != mentorId then
      (.error ⟨403, "Only the session creator can remove participants"⟩, st)
    else if targetUserId == mentorId then
      (.error ⟨400, "You cannot remove yourself from your own session"⟩, st)
    else if st.participants.any (kickTarget sessionId targetUserId) then
      (.ok true,
        { st with participants := st.participants.map (fun p =>
            if kickTarget sessionId targetUserId p then
              { p with kicked_at := some now, can_edit := false, can_share_screen := false }
            else p) })
    else
      (.error ⟨404, "Participant not found or already removed"⟩, st)

/-- `PermissionChanges` (session.ts lines 339-342). -/
structure PermissionChanges where
  can_edit : Option Bool
  can_share_screen : Option Bool
  deriving Repr, DecidableEq

/-- The row update applied by `updateParticipantPermissions`: exactly the
supplied flags overwrite, everything else (role, kicked_at, keys) is kept. -/
def permPatchRow (changes : PermissionChanges) (q : Participant) : Participant :=
  { q with
    can_edit := changes.can_edit.getD q.can_edit
    can_share_screen := changes.can_share_screen.getD q.can_share_screen }

/-- `updateParticipantPermissions` (session.ts lines 344-381): creator only
(403), at least one field (400); the update filters on (session, user) only —
there is no `kicked_at` filter — and applies exactly the supplied flags,
leaving `role` and `kicked_at` as they were.  No matching row: 404. -/
def updateParticipantPermissions (st : Store) (mentorId sessionId targetUserId : String)
    (changes : PermissionChanges) : Except HttpError Participant × Store :=
  match ensureSessionExistsWithOwner st sessionId with
  | .error e => (.error e, st)
  | .ok session =>
    if session.created_by != mentorId then
      (.error ⟨403, "Only the session creator can update participant permissions"⟩, st)
    else if changes.can_edit.isNone && changes.can_share_screen.isNone then
      (.error ⟨400, "No permission changes provided"⟩, st)
    else
      match findParticipant st sessionId targetUserId with
      | none => (.error ⟨404, "Participant not found"⟩, st)
      | some p =>
        (.ok (permPatchRow changes p),
          { st with participants := st.participants.map (fun q =>
              if q.session_id == sessionId && q.user_id == targetUserId then
                permPatchRow changes q
              else q) })

/-- `addSessionMessage` (session.ts lines 118-130): admission re-check via
`ensureSessionParticipant`, then the append-only insert (fault-injectable). -/
def addSessionMessage (st : Store) (sessionId userId content : String)
    (insertFails : Bool) : Except HttpError Unit × Store :=
  match ensureSessionParticipant st userId sessionId with
  | (.error e, st1) => (.error e, st1)
  | (.ok _, st1) =>
    if insertFails then
      (.error ⟨500, "Unable to store message"⟩, st1)
    else
      (.ok (), { st1 with messages := st1.messages ++ [⟨sessionId, userId, content⟩] })

/-- `addCodeSnapshot` (session.ts lines 132-145): admission re-check, then
the append-only snapshot insert (fault-injectable). -/
def addCodeSnapshot (st : Store) (sessionId userId code language : String)
    (insertFails : Bool) : Except HttpError Unit × Store :=
  match ensureSessionParticipant st userId sessionId with
  | (.error e, st1) => (.error e, st1)
  | (.ok _, st1) =>
    if insertFails then
      (.error ⟨500, "Unable to store code snapshot"⟩, st1)
    else
      (.ok (), { st1 with snapshots := st1.snapshots ++ [⟨sessionId, userId, language, code⟩] })

/-! ## Execution sandbox (`src/services/codeRunner.ts`)

The filesystem is modelled as the list of existing ephemeral directories
(file contents play no part in any claim, so only directory existence is
tracked).  Each `execAsync` call is modelled by an `ExecOutcome` oracle:
either the promise resolves with captured stdout/stderr, or it rejects
(non-zero exit, timeout, or spawn error) carrying partial stdout/stderr and
a message.  `Date.now() - startTime` is the parameter `elapsed`. -/

/-- JS `toLowerCase`, as a structural map over the character list.  (Core
`String.toLower` computes the same string but is defined by well-founded
recursion over byte positions, which blocks kernel evaluation on concrete
inputs; this form evaluates.) -/
def lowerString (s : String) : String :=
  String.mk (s.data.map Char.toLower)

/-- JS `trim` (strip leading and trailing whitespace), as structural
recursion over the character list; see `lowerString` for why core
`String.trim` is not used. -/
def trimString (s : String) : String :=
  String.mk (((s.data.dropWhile Char.isWhitespace).reverse.dropWhile Char.isWhitespace).reverse)

/-- The transient result of one sandbox invocation
(codeRunner.ts lines 9-13); `error` is nullable. -/
structure ExecutionResult where
  output : String
  error : Option String
  executionTime : Nat
  deriving Repr, DecidableEq

/-- A path returned by `createTempFile`: the ephemeral directory plus the
source filename inside it. -/
structure TempPath where
  dir : String
  file : String
  deriving Repr, DecidableEq

/-- The filesystem: which ephemeral directories currently exist. -/
structure FsState where
  dirs : List String
  deriving Repr, DecidableEq

/-- Outcome oracle for one `execAsync` call. -/
inductive ExecOutcome where
  /-- The promise resolves: captured stdout and stderr. -/
  | success (stdout stderr : String)
  /-- The promise rejects (non-zero exit, timeout, or spawn failure):
  partial stdout/stderr (empty string models an undefined field) and the
  error message. -/
  | failure (stdout stderr message : String)
  deriving Repr, DecidableEq

/-- `createTempFile` (codeRunner.ts lines 17-22): `mkdtemp` creates the
directory, then `writeFile` writes the snippet.  A `writeFile` fault
(injected by `writeFails`) rejects AFTER the directory exists. -/
def createTempFile (fs : FsState) (newDir : String) (extension : String)
    (writeFails : Bool) : Except String TempPath × FsState :=
  let fs1 : FsState := ⟨fs.dirs ++ [newDir]⟩
  if writeFails then
    (.error "EIO: write failed", fs1)
  else
    (.ok ⟨newDir, "code" ++ extension⟩, fs1)

/-- `cleanupTempFile` (codeRunner.ts lines 24-31): remove the directory of
the file; its own catch swallows removal faults, so it never throws. -/
def cleanupTempFile (fs : FsState) (p : TempPath) : FsState :=
  ⟨fs.dirs.filter (fun d => d != p.dir)⟩

/-- The result built from one `execAsync` outcome, as every per-language
runner builds it: resolve gives trimmed stdout and a null-or-trimmed-stderr
error; reject gives partial trimmed stdout and stderr-or-message. -/
def execResultOf (out : ExecOutcome) (elapsed : Nat) : ExecutionResult :=
  match out with
  | .success stdout stderr =>
    { output := trimString stdout
      error := if trimString stderr == "" then none else some (trimString stderr)
      executionTime := elapsed }
  | .failure stdout stderr message =>
    { output := trimString stdout
      error := some (if trimString stderr == "" then message else trimString stderr)
      executionTime := elapsed }

/-- The shared shape of `executeJavaScript` / `executeTypeScript` /
`executePython` / `executeCSharp` / `executeGo` (codeRunner.ts lines 78-154
and 191-241), which differ only in the file extension and the toolchain
command: `createTempFile` is awaited BEFORE the try block, so a fault there
propagates with no cleanup; once the file exists, both the resolve and the
reject branch of the toolchain call return a result and the finally block
removes the directory. -/
def executeWithTempFile (fs : FsState) (extension newDir : String)
    (writeFails : Bool) (out : ExecOutcome) (elapsed : Nat) :
    Except String ExecutionResult × FsState :=
  match createTempFile fs newDir extension writeFails with
  | (.error e, fs1) => (.error e, fs1)
  | (.ok p, fs1) => (.ok (execResultOf out elapsed), cleanupTempFile fs1 p)

/-- `executeJavaScript` (codeRunner.ts lines 78-102): `node` on a `.js` file. -/
def executeJavaScript (fs : FsState) (newDir : String) (writeFails : Bool)
    (out : ExecOutcome) (elapsed : Nat) : Except String ExecutionResult × FsState :=
  executeWithTempFile fs ".js" newDir writeFails out elapsed

/-- `executeTypeScript` (codeRunner.ts lines 104-128): `npx ts-node` on `.ts`. -/
def executeTypeScript (fs : FsState) (newDir : String) (writeFails : Bool)
    (out : ExecOutcome) (elapsed : Nat) : Except String ExecutionResult × FsState :=
  executeWithTempFile fs ".ts" newDir writeFails out elapsed

/-- `executePython` (codeRunner.ts lines 130-154): `python` on `.py`. -/
def executePython (fs : FsState) (newDir : String) (writeFails : Bool)
    (out : ExecOutcome) (elapsed : Nat) : Except String ExecutionResult × FsState :=
  executeWithTempFile fs ".py" newDir writeFails out elapsed

/-- `executeCSharp` (codeRunner.ts lines 191-215): `dotnet script` on `.cs`. -/
def executeCSharp (fs : FsState) (newDir : String) (writeFails : Bool)
    (out : ExecOutcome) (elapsed : Nat) : Except String ExecutionResult × FsState :=
  executeWithTempFile fs ".cs" newDir writeFails out elapsed

/-- `executeGo` (codeRunner.ts lines 217-241): `go run` on `.go`. -/
def executeGo (fs : FsState) (newDir : String) (writeFails : Bool)
    (out : ExecOutcome) (elapsed : Nat) : Except String ExecutionResult × FsState :=
  executeWithTempFile fs ".go" newDir writeFails out elapsed

/-- A word character of the `\w` regex class. -/
def isWordChar (c : Char) : Bool :=
  c.isAlphanum || c == '_'

/-- Scan for the pattern `public <ws> class <ws> <word>` over the
whitespace-separated tokens of the source. -/
def javaClassScan : List String → Option String
  | "public" :: "class" :: w :: rest =>
    let name := String.mk (w.toList.takeWhile isWordChar)
    if name == "" then javaClassScan ("class" :: w :: rest) else some name
  | _ :: rest => javaClassScan rest
  | [] => none
termination_by l => l.length
decreasing_by
  all_goals simp +arith [List.length_cons]

/-- `extractJavaClassName` (codeRunner.ts lines 243-246), the
`public\s+class\s+(\w+)` match, modelled over whitespace-separated tokens.
Its value only names the source file, which the directory-level filesystem
model does not track; no claim depends on it. -/
def extractJavaClassName (code : String) : Option String :=
  javaClassScan ((code.split Char.isWhitespace).filter (fun t => t != ""))

/-- `executeJava` (codeRunner.ts lines 156-189): `mkdtemp` and `writeFile`
happen directly, BEFORE the try block (a write fault propagates with no
cleanup); inside the try, `javac` then `java` run, the catch returns the
rejection as a result, and the finally removes the directory. -/
def executeJava (fs : FsState) (code newDir : String) (writeFails : Bool)
    (compileOut runOut : ExecOutcome) (elapsed : Nat) :
    Except String ExecutionResult × FsState :=
  let fs1 : FsState := ⟨fs.dirs ++ [newDir]⟩
  let _className := (extractJavaClassName code).getD "Main"
  if writeFails then
    (.error "EIO: write failed", fs1)
  else
    let fs2 : FsState := ⟨fs1.dirs.filter (fun d => d != newDir)⟩
    match compileOut with
    | .failure so se msg => (.ok (execResultOf (.failure so se msg) elapsed), fs2)
    | .success _ _ => (.ok (execResultOf runOut elapsed), fs2)

/-- The environment of one `executeCode` invocation: the unique directory
name `mkdtemp` would mint, the write-fault injection, the outcome oracles
for the (up to two) toolchain invocations, and the elapsed wall-clock. -/
structure ExecEnv where
  newDir : String
  writeFails : Bool
  compileOut : ExecOutcome
  runOut : ExecOutcome
  elapsed : Nat
  deriving Repr, DecidableEq

/-- The language names `executeCode` dispatches on after lower-casing. -/
def supportedLanguages : List String :=
  ["javascript", "typescript", "python", "java", "csharp", "c#", "go"]

/-- The catch of `executeCode` (codeRunner.ts lines 65-70): a fault that
propagated out of a per-language runner becomes an error result
(`err.message || 'Execution failed'`).  Its finally checks `filePath`,
which the source never assigns, so no cleanup runs there. -/
def executeCodeCatch (r : Except String ExecutionResult × FsState)
    (elapsed : Nat) : ExecutionResult × FsState :=
  match r with
  | (.ok res, fs) => (res, fs)
  | (.error msg, fs) =>
    ({ output := ""
       error := some (if msg == "" then "Execution failed" else msg)
       executionTime := elapsed }, fs)

/-- `executeCode` (codeRunner.ts lines 33-76): dispatch on the lower-cased
language; unsupported languages return an error result without touching the
filesystem or any toolchain; every fault from a runner is converted to an
error result by the catch, so the function always returns a result. -/
def executeCode (fs : FsState) (code language : String) (env : ExecEnv) :
    ExecutionResult × FsState :=
  let lang := lowerString language
  if lang == "javascript" then
    executeCodeCatch (executeJavaScript fs env.newDir env.writeFails env.runOut env.elapsed) env.elapsed
  else if lang == "typescript" then
    executeCodeCatch (executeTypeScript fs env.newDir env.writeFails env.runOut env.elapsed) env.elapsed
  else if lang == "python" then
    executeCodeCatch (executePython fs env.newDir env.writeFails env.runOut env.elapsed) env.elapsed
  else if lang == "java" then
    executeCodeCatch (executeJava fs code env.newDir env.writeFails env.compileOut env.runOut env.elapsed) env.elapsed
  else if lang == "csharp" || lang == "c#" then
    executeCodeCatch (executeCSharp fs env.newDir env.writeFails env.runOut env.elapsed) env.elapsed
  else if lang == "go" then
    executeCodeCatch (executeGo fs env.newDir env.writeFails env.runOut env.elapsed) env.elapsed
  else
    ({ output := ""
       error := some ("Language \"" ++ language ++ "\" is not supported for execution")
       executionTime := env.elapsed }, fs)

/-! ## Socket handlers (gateway file)

Each handler is a pure function of the connection state, the store and the
payload; it returns the acknowledgement sent to the callback, the resulting
store, the list of room broadcasts (an `io.to(room).emit`, which includes
the sender, or a `socket.to(room).emit`, which excludes it, distinguished by
`excludeSender`) and the `session:error` messages emitted to the sender
alone.  All modelled failures are `HttpError`s, so the
`err instanceof HttpError ? err.message : ...` conversion always takes the
first branch. -/

/-- The identity attached to an authenticated connection; `metaName` is
`user.user_metadata.name`. -/
structure ConnUser where
  id : String
  email : String
  metaName : Option String
  deriving Repr, DecidableEq

/-- The per-connection mutable slot (`socket.data`): the identity and the
single current-session slot. -/
structure SocketState where
  user : ConnUser
  sessionId : Option String
  deriving Repr, DecidableEq

/-- `user.user_metadata?.name ?? user.email`. -/
def ConnUser.displayName (u : ConnUser) : String :=
  u.metaName.getD u.email

/-- The acknowledgement payload `{ok, message?}`. -/
structure Ack where
  ok : Bool
  message : Option String
  deriving Repr, DecidableEq

/-- Payload of an inbound `chat:message`. -/
structure ChatPayload where
  id : Option String
  text : Option String
  time : Option String
  deriving Repr, DecidableEq

/-- The enriched `chat:message` event fanned out to the room. -/
structure ChatBroadcast where
  room : String
  excludeSender : Bool
  id : String
  text : String
  time : String
  authorId : String
  authorName : String
  sessionId : String
  deriving Repr, DecidableEq

/-- Output of the `chat:message` handler. -/
structure ChatHandlerOut where
  ack : Ack
  store : Store
  broadcasts : List ChatBroadcast
  senderErrors : List String
  deriving Repr, DecidableEq

/-- The shared failure path of the `chat:message` handler: `{ok:false}` ack
plus a `session:error` to the sender, nothing broadcast. -/
def chatFail (st : Store) (msg : String) : ChatHandlerOut :=
  { ack := ⟨false, some msg⟩, store := st, broadcasts := [], senderErrors := [msg] }

/-- The `chat:message` handler (gateway file lines 151-179): requires the
current-session slot and a non-empty (truthy) text, awaits
`addSessionMessage` — which re-checks admission and persists — and only then
broadcasts the enriched message to the room via `io.to` (sender included). -/
def chatMessageHandler (conn : SocketState) (st : Store) (payload : ChatPayload)
    (insertFails : Bool) (nowMs : Nat) (nowIso : String) : ChatHandlerOut :=
  match conn.sessionId with
  | none => chatFail st "Join a session before sending messages"
  | some sessionId =>
    match payload.text with
    | none => chatFail st "Message text is required"
    | some text =>
      if text == "" then chatFail st "Message text is required"
      else
        match addSessionMessage st sessionId conn.user.id text insertFails with
        | (.error e, st1) => chatFail st1 e.message
        | (.ok _, st1) =>
          { ack := ⟨true, none⟩
            store := st1
            broadcasts := [{ room := "session:" ++ sessionId
                             excludeSender := false
                             id := payload.id.getD (toString nowMs)
                             text := text
                             time := payload.time.getD nowIso
                             authorId := conn.user.id
                             authorName := conn.user.displayName
                             sessionId := sessionId }]
            senderErrors := [] }

/-- Payload of an inbound `code:update` or `code:run`. -/
structure CodePayload where
  code : Option String
  language : Option String
  deriving Repr, DecidableEq

/-- The `code:update` event fanned out to the room (the raw, non-defaulted
`payload.language` is forwarded). -/
structure CodeBroadcast where
  room : String
  excludeSender : Bool
  code : String
  language : Option String
  sessionId : String
  authorId : String
  updatedAt : String
  deriving Repr, DecidableEq

/-- Output of the `code:update` handler. -/
structure CodeHandlerOut where
  ack : Ack
  store : Store
  broadcasts : List CodeBroadcast
  senderErrors : List String
  deriving Repr, DecidableEq

/-- The shared failure path of the `code:update` handler. -/
def codeFail (st : Store) (msg : String) : CodeHandlerOut :=
  { ack := ⟨false, some msg⟩, store := st, broadcasts := [], senderErrors := [msg] }

/-- The `code:update` handler (gateway file lines 181-211): requires the
slot and non-empty code, awaits `addCodeSnapshot` (admission re-check plus
persist, with the language defaulted to javascript for storage), then
broadcasts via `io.to` (sender included). -/
def codeUpdateHandler (conn : SocketState) (st : Store) (payload : CodePayload)
    (insertFails : Bool) (nowIso : String) : CodeHandlerOut :=
  match conn.sessionId with
  | none => codeFail st "Join a session before sharing code"
  | some sessionId =>
    match payload.code with
    | none => codeFail st "Code content is required"
    | some code =>
      if code == "" then codeFail st "Code content is required"
      else
        match addCodeSnapshot st sessionId conn.user.id code (payload.language.getD "javascript") insertFails with
        | (.error e, st1) => codeFail st1 e.message
        | (.ok _, st1) =>
          { ack := ⟨true, none⟩
            store := st1
            broadcasts := [{ room := "session:" ++ sessionId
                             excludeSender := false
                             code := code
                             language := payload.language
                             sessionId := sessionId
                             authorId := conn.user.id
                             updatedAt := nowIso }]
            senderErrors := [] }

/-- The `code:run-result` event fanned out to the room. -/
structure RunBroadcast where
  room : String
  excludeSender : Bool
  id : String
  language : String
  output : String
  error : Option String
  executionTime : Nat
  authorId : String
  authorName : String
  time : String
  deriving Repr, DecidableEq

/-- Output of the `code:run` handler (it also threads the filesystem the
sandbox runs in). -/
structure RunHandlerOut where
  ack : Ack
  store : Store
  fs : FsState
  broadcasts : List RunBroadcast
  senderErrors : List String
  deriving Repr, DecidableEq

/-- The shared failure path of the `code:run` handler. -/
def runFail (st : Store) (fs : FsState) (msg : String) : RunHandlerOut :=
  { ack := ⟨false, some msg⟩, store := st, fs := fs, broadcasts := [], senderErrors := [msg] }

/-- The `code:run` handler (gateway file lines 213-249): validates only that
the current-session slot is set and that the code payload is non-empty; it
performs no repository read or write and no participant re-check, runs
`executeCode` on the lower-cased (defaulted) language, broadcasts the result
to the whole room via `io.to` (sender included) and acknowledges ok. -/
def codeRunHandler (conn : SocketState) (st : Store) (payload : CodePayload)
    (fs : FsState) (env : ExecEnv) (nowMs : Nat) (nowIso : String) : RunHandlerOut :=
  match conn.sessionId with
  | none => runFail st fs "Join a session before running code"
  | some sessionId =>
    match payload.code with
    | none => runFail st fs "Code content is required"
    | some code =>
      if code == "" then runFail st fs "Code content is required"
      else
        let language := lowerString (payload.language.getD "javascript")
        let result := executeCode fs code language env
        { ack := ⟨true, none⟩
          store := st
          fs := result.2
          broadcasts := [{ room := "session:" ++ sessionId
                           excludeSender := false
                           id := "run-" ++ toString nowMs
                           language := language
                           output := result.1.output
                           error := result.1.error
                           executionTime := result.1.executionTime
                           authorId := conn.user.id
                           authorName := conn.user.displayName
                           time := nowIso }]
          senderErrors := [] }

/-! ## Claim theorems -/

/-- C2: for every (userId, sessionId), `ensureSessionParticipant` returns
the participant successfully iff a participant row exists for the pair with
`kicked_at` unset; when no row exists it fails 403, when the row has
`kicked_at` set it fails 403, and in every case the store is unchanged. -/
theorem ensureSessionParticipant_spec (st : Store) (userId sessionId : String) :
    (ensureSessionParticipant st userId sessionId).2 = st
    ∧ (∀ p, (ensureSessionParticipant st userId sessionId).1 = .ok p ↔
        (findParticipant st sessionId userId = some p ∧ p.kicked_at = none))
    ∧ (findParticipant st sessionId userId = none →
        (ensureSessionParticipant st userId sessionId).1 =
          .error ⟨403, "You are not a participant in this session"⟩)
    ∧ (∀ p t, findParticipant st sessionId userId = some p → p.kicked_at = some t →
        (ensureSessionParticipant st userId sessionId).1 =
          .error ⟨403, "You have been removed from this session"⟩) := by
  refine ⟨?_, ?_, ?_, ?_⟩
  · rcases h : findParticipant st sessionId userId with _ | p
    · simp [ensureSessionParticipant, h]
    · rcases hk : p.kicked_at with _ | t <;> simp [ensureSessionParticipant, h, hk]
  · intro q
    rcases h : findParticipant st sessionId userId with _ | p
    · simp [ensureSessionParticipant, h]
    · rcases hk : p.kicked_at with _ | t
      · simp only [ensureSessionParticipant, h, hk]
        constructor
        · intro hq
          cases hq
          exact ⟨rfl, hk⟩
        · rintro ⟨hq, -⟩
          cases hq
          rfl
      · simp only [ensureSessionParticipant, h, hk]
        constructor
        · intro hq
          cases hq
        · rintro ⟨hq, hnone⟩
          cases hq
          rw [hk] at hnone
          cases hnone
  · intro h
    simp [ensureSessionParticipant, h]
  · intro q t hq ht
    simp [ensureSessionParticipant, hq, ht]

/-- Concrete witness for C2: on a one-row store the gate admits the
participant and the store is untouched. -/
theorem ensureSessionParticipant_spec_witness :
    (ensureSessionParticipant
        ⟨[], [⟨"s1", "u1", "student", true, false, 0, none⟩], [], []⟩ "u1" "s1").1 =
      .ok ⟨"s1", "u1", "student", true, false, 0, none⟩ :=
  ((ensureSessionParticipant_spec
      ⟨[], [⟨"s1", "u1", "student", true, false, 0, none⟩], [], []⟩ "u1" "s1").2.1 _).mpr
    ⟨by decide, rfl⟩

theorem mem_dedupFirst (a : String) (l : List String) : a ∈ dedupFirst l ↔ a ∈ l := by
  induction l using dedupFirst.induct with
  | case1 => simp [dedupFirst]
  | case2 x xs ih =>
    simp only [dedupFirst, List.mem_cons, ih, List.mem_filter]
    by_cases hax : a = x
    · simp [hax]
    · simp [hax, bne_iff_ne]

theorem nodup_dedupFirst (l : List String) : (dedupFirst l).Nodup := by
  induction l using dedupFirst.induct with
  | case1 => simp [dedupFirst]
  | case2 x xs ih =>
    simp only [dedupFirst, List.nodup_cons]
    refine ⟨?_, ih⟩
    rw [mem_dedupFirst]
    simp [List.mem_filter]

theorem count_dedupFirst (a : String) (l : List String) :
    (dedupFirst l).count a = if a ∈ l then 1 else 0 := by
  by_cases h : a ∈ l
  · simp [h, List.count_eq_one_of_mem (nodup_dedupFirst l) ((mem_dedupFirst a l).mpr h)]
  · simp [h, List.count_eq_zero_of_not_mem (fun hc => h ((mem_dedupFirst a l).mp hc))]

theorem countP_studentRows (newId : String) (now : Nat) (uid : String) (ids : List String) :
    List.countP (fun p : Participant =>
        p.session_id == newId && p.user_id == uid && p.role == "student")
      (ids.map (fun u => studentParticipantRow newId u now)) = ids.count uid := by
  induction ids with
  | nil => rfl
  | cons a l ih =>
    simp only [List.map_cons, List.countP_cons, List.count_cons, ih]
    by_cases h : a = uid
    · subst h
      simp [studentParticipantRow]
    · simp [studentParticipantRow, h, Ne.symm h]

/-- C1: a successful `createSession` records the owner as a participant of
the new session with role mentor and both permission flags true, records no
student row for the owner, and records exactly one student row per requested
student id (deduplicated, owner excluded); if the participant insertion
fails after the session row was created, the call fails with 500, the
compensating delete leaves no session row with the new id, and no
participant rows were added. -/
theorem createSession_spec (st : Store) (mentorId : String) (input : SessionCreateInput)
    (newId newInviteCode : String) (now : Nat)
    (hFresh : ∀ p ∈ st.participants, p.session_id ≠ newId) :
    (∃ sess,
      (createSession st mentorId input newId newInviteCode now ⟨false, false⟩).1 = .ok sess
      ∧ sess.id = newId
      ∧ (createSession st mentorId input newId newInviteCode now ⟨false, false⟩).2.participants.countP
          (fun p => p.session_id == newId && p.user_id == mentorId && p.role == "mentor"
            && p.can_edit && p.can_share_screen) = 1
      ∧ (createSession st mentorId input newId newInviteCode now ⟨false, false⟩).2.participants.countP
          (fun p => p.session_id == newId && p.user_id == mentorId && p.role == "student") = 0
      ∧ (∀ uid, uid ≠ mentorId → uid ≠ "" →
          (createSession st mentorId input newId newInviteCode now ⟨false, false⟩).2.participants.countP
            (fun p => p.session_id == newId && p.user_id == uid && p.role == "student") =
          (if uid ∈ input.participantUserIds.getD [] then 1 else 0)))
    ∧ ((createSession st mentorId input newId newInviteCode now ⟨false, true⟩).1 =
        .error ⟨500, "Unable to attach participants"⟩)
    ∧ (∀ s ∈ (createSession st mentorId input newId newInviteCode now ⟨false, true⟩).2.sessions,
        s.id ≠ newId)
    ∧ (createSession st mentorId input newId newInviteCode now ⟨false, true⟩).2.participants =
        st.participants := by
  have hparts : (createSession st mentorId input newId newInviteCode now ⟨false, false⟩).2.participants
      = st.participants ++
        (ownerParticipantRow newId mentorId now ::
          (uniqueStudentIds mentorId input).map (fun uid => studentParticipantRow newId uid now)) := rfl
  have hold : ∀ q : Participant → Bool,
      (∀ p, q p = true → p.session_id = newId) → st.participants.countP q = 0 := by
    intro q hq
    rw [List.countP_eq_zero]
    intro p hp hpq
    exact hFresh p hp (hq p hpq)
  refine ⟨?_, ?_, ?_, ?_⟩
  · refine ⟨_, rfl, rfl, ?_, ?_, ?_⟩
    · rw [hparts, List.countP_append, List.countP_cons]
      rw [hold _ (by intro p hp; simp only [Bool.and_eq_true, beq_iff_eq] at hp; exact hp.1.1.1.1)]
      rw [List.countP_eq_zero.mpr ?_]
      · simp [ownerParticipantRow]
      · intro p hp
        simp only [List.mem_map] at hp
        obtain ⟨uid, -, rfl⟩ := hp
        simp [studentParticipantRow]
    · rw [hparts, List.countP_append, List.countP_cons]
      rw [hold _ (by intro p hp; simp only [Bool.and_eq_true, beq_iff_eq] at hp; exact hp.1.1)]
      rw [List.countP_eq_zero.mpr ?_]
      · simp [ownerParticipantRow]
      · intro p hp
        simp only [List.mem_map] at hp
        obtain ⟨uid, huid, rfl⟩ := hp
        rw [uniqueStudentIds, mem_dedupFirst, List.mem_filter] at huid
        simp only [Bool.and_eq_true, bne_iff_ne] at huid
        simp [studentParticipantRow, huid.2.2]
    · intro uid huidMentor huidEmpty
      rw [hparts, List.countP_append, List.countP_cons]
      rw [hold _ (by intro p hp; simp only [Bool.and_eq_true, beq_iff_eq] at hp; exact hp.1.1)]
      rw [countP_studentRows, uniqueStudentIds, count_dedupFirst]
      have hmem : uid ∈ (input.participantUserIds.getD []).filter
          (fun id => id != "" && id != mentorId) ↔ uid ∈ input.participantUserIds.getD [] := by
        rw [List.mem_filter]
        simp [bne_iff_ne, huidEmpty, huidMentor]
      rw [if_congr hmem rfl rfl]
      simp [ownerParticipantRow, Ne.symm huidMentor]
  · rfl
  · intro s hs
    have hmem : s ∈ List.filter (fun t : Session => t.id != newId)
        (st.sessions ++ [newSessionRow mentorId input newId newInviteCode]) := hs
    rw [List.mem_filter] at hmem
    exact bne_iff_ne.mp hmem.2
  · rfl

/-- Concrete witness for C1: creating a session with requested students
`[a, a, m, b]` as owner `m` on an empty store yields exactly one student row
for `b` (the duplicate is collapsed, the owner excluded). -/
theorem createSession_spec_witness :
    (createSession ⟨[], [], [], []⟩ "m"
        ⟨"T", none, none, none, none, none, none, none, some ["a", "a", "m", "b"]⟩
        "sid" "ic" 0 ⟨false, false⟩).2.participants.countP
      (fun p => p.session_id == "sid" && p.user_id == "b" && p.role == "student") = 1 := by
  have h := createSession_spec ⟨[], [], [], []⟩ "m"
    ⟨"T", none, none, none, none, none, none, none, some ["a", "a", "m", "b"]⟩
    "sid" "ic" 0 (by simp)
  obtain ⟨⟨sess, -, -, -, -, hcount⟩, -⟩ := h
  have hb := hcount "b" (by decide) (by decide)
  rw [if_pos (by decide)] at hb
  exact hb

/-- C3: `joinSessionByCode` fails 404 when no session carries the invite
code; fails 400 when the session status is completed or cancelled; is a
no-op returning the session when a non-kicked membership already exists;
fails 403 when the existing membership is kicked; and otherwise inserts
exactly one new participant row whose role is mentor iff the caller is the
creator of the session, student otherwise. -/
theorem joinSessionByCode_spec (st : Store) (userId inviteCode : String) (now : Nat) :
    (st.sessions.find? (fun s => s.invite_code == inviteCode) = none →
      ∀ insertFails, joinSessionByCode st userId inviteCode now insertFails =
        (.error ⟨404, "No session found for that code"⟩, st))
    ∧ (∀ session, st.sessions.find? (fun s => s.invite_code == inviteCode) = some session →
        (session.status = "completed" ∨ session.status = "cancelled") →
        ∀ insertFails, joinSessionByCode st userId inviteCode now insertFails =
          (.error ⟨400, "This session is no longer accepting participants"⟩, st))
    ∧ (∀ session p, st.sessions.find? (fun s => s.invite_code == inviteCode) = some session →
        session.status ≠ "completed" → session.status ≠ "cancelled" →
        findParticipant st session.id userId = some p → p.kicked_at = none →
        ∀ insertFails, joinSessionByCode st userId inviteCode now insertFails =
          (.ok session, st))
    ∧ (∀ session p t, st.sessions.find? (fun s => s.invite_code == inviteCode) = some session →
        session.status ≠ "completed" → session.status ≠ "cancelled" →
        findParticipant st session.id userId = some p → p.kicked_at = some t →
        ∀ insertFails, joinSessionByCode st userId inviteCode now insertFails =
          (.error ⟨403, "You have been removed from this session"⟩, st))
    ∧ (∀ session, st.sessions.find? (fun s => s.invite_code == inviteCode) = some session →
        session.status ≠ "completed" → session.status ≠ "cancelled" →
        findParticipant st session.id userId = none →
        joinSessionByCode st userId inviteCode now false =
          (.ok session, { st with participants := st.participants ++
            [{ session_id := session.id, user_id := userId,
               role := if userId == session.created_by then "mentor" else "student",
               can_edit := studentDefaultCanEdit,
               can_share_screen := studentDefaultCanShareScreen,
               joined_at := now, kicked_at := none }] })) := by
  refine ⟨?_, ?_, ?_, ?_, ?_⟩
  · intro h insertFails
    simp [joinSessionByCode, h]
  · intro session hfind hstatus insertFails
    have hterm : (session.status == "completed" || session.status == "cancelled") = true := by
      rcases hstatus with h | h <;> simp [h]
    simp [joinSessionByCode, hfind, hterm]
  · intro session p hfind hc1 hc2 hpart hkick insertFails
    have hterm : (session.status == "completed" || session.status == "cancelled") = false := by
      simp [hc1, hc2]
    simp [joinSessionByCode, hfind, hterm, hpart, hkick]
  · intro session p t hfind hc1 hc2 hpart hkick insertFails
    have hterm : (session.status == "completed" || session.status == "cancelled") = false := by
      simp [hc1, hc2]
    simp [joinSessionByCode, hfind, hterm, hpart, hkick]
  · intro session hfind hc1 hc2 hpart
    have hterm : (session.status == "completed" || session.status == "cancelled") = false := by
      simp [hc1, hc2]
    simp [joinSessionByCode, hfind, hterm, hpart]

/-- Concrete witness for C3: a first-time join through a live session's
invite code succeeds and returns the session. -/
theorem joinSessionByCode_spec_witness :
    (joinSessionByCode
        ⟨[⟨"s1", "T", "live", none, none, "owner", none, "ic", true, true, true, []⟩], [], [], []⟩
        "u" "ic" 5 false).1 =
      .ok ⟨"s1", "T", "live", none, none, "owner", none, "ic", true, true, true, []⟩ := by
  have h := (joinSessionByCode_spec
      ⟨[⟨"s1", "T", "live", none, none, "owner", none, "ic", true, true, true, []⟩], [], [], []⟩
      "u" "ic" 5).2.2.2.2
      ⟨"s1", "T", "live", none, none, "owner", none, "ic", true, true, true, []⟩
      (by decide) (by decide) (by decide) (by decide)
  rw [h]

/-- C4: with the session present, `kickParticipant` fails 403 when the
caller is not the creator; fails 400 when the target is the caller; on a
target row with `kicked_at` unset it succeeds, stamps `kicked_at` and forces
both permission flags false (leaving non-target rows in place); and when the
target row is absent or already kicked it fails with the same 404 error in
both cases. -/
theorem kickParticipant_spec (st : Store) (mentorId sessionId targetUserId : String)
    (now : Nat) (session : Session)
    (hfind : st.sessions.find? (fun s => s.id == sessionId) = some session) :
    (session.created_by ≠ mentorId →
      kickParticipant st mentorId sessionId targetUserId now =
        (.error ⟨403, "Only the session creator can remove participants"⟩, st))
    ∧ (session.created_by = mentorId → targetUserId = mentorId →
      kickParticipant st mentorId sessionId targetUserId now =
        (.error ⟨400, "You cannot remove yourself from your own session"⟩, st))
    ∧ (∀ p, session.created_by = mentorId → targetUserId ≠ mentorId →
        p ∈ st.participants → p.session_id = sessionId → p.user_id = targetUserId →
        p.kicked_at = none →
        (kickParticipant st mentorId sessionId targetUserId now).1 = .ok true
        ∧ { p with kicked_at := some now, can_edit := false, can_share_screen := false }
            ∈ (kickParticipant st mentorId sessionId targetUserId now).2.participants
        ∧ (kickParticipant st mentorId sessionId targetUserId now).2.participants.countP
            (kickTarget sessionId targetUserId) = 0
        ∧ (∀ q ∈ st.participants, kickTarget sessionId targetUserId q = false →
            q ∈ (kickParticipant st mentorId sessionId targetUserId now).2.participants)
        ∧ (kickParticipant st mentorId sessionId targetUserId now).2.sessions = st.sessions)
    ∧ (session.created_by = mentorId → targetUserId ≠ mentorId →
        (∀ p ∈ st.participants,
          ¬(p.session_id = sessionId ∧ p.user_id = targetUserId ∧ p.kicked_at = none)) →
        kickParticipant st mentorId sessionId targetUserId now =
          (.error ⟨404, "Participant not found or already removed"⟩, st)) := by
  refine ⟨?_, ?_, ?_, ?_⟩
  · intro howner
    simp [kickParticipant, ensureSessionExistsWithOwner, hfind, howner]
  · intro howner hself
    simp [kickParticipant, ensureSessionExistsWithOwner, hfind, howner, hself]
  · intro p howner hself hp hps hpu hpk
    have hany : st.participants.any (kickTarget sessionId targetUserId) = true := by
      rw [List.any_eq_true]
      exact ⟨p, hp, by simp [kickTarget, hps, hpu, hpk]⟩
    have hkickEq : kickParticipant st mentorId sessionId targetUserId now =
        (.ok true, { st with participants := st.participants.map (fun q =>
          if kickTarget sessionId targetUserId q then
            { q with kicked_at := some now, can_edit := false, can_share_screen := false }
          else q) }) := by
      simp [kickParticipant, ensureSessionExistsWithOwner, hfind, howner, hself, hany]
    refine ⟨?_, ?_, ?_, ?_, ?_⟩
    · rw [hkickEq]
    · rw [hkickEq]
      have heq : { p with kicked_at := some now, can_edit := false, can_share_screen := false }
          = (fun q => if kickTarget sessionId targetUserId q then
              { q with kicked_at := some now, can_edit := false, can_share_screen := false }
            else q) p := by
        simp [kickTarget, hps, hpu, hpk]
      rw [heq]
      exact List.mem_map_of_mem _ hp
    · rw [hkickEq]
      rw [List.countP_eq_zero]
      intro q hq
      rw [List.mem_map] at hq
      obtain ⟨r, -, rfl⟩ := hq
      by_cases hrt : kickTarget sessionId targetUserId r = true
      · simp only [if_pos hrt]
        simp [kickTarget]
      · simp only [if_neg hrt]
        exact hrt
    · intro q hq hqt
      rw [hkickEq]
      have heq : q = (fun r => if kickTarget sessionId targetUserId r then
          { r with kicked_at := some now, can_edit := false, can_share_screen := false }
        else r) q := by
        simp [hqt]
      rw [heq]
      exact List.mem_map_of_mem _ hq
    · rw [hkickEq]
  · intro howner hself hnone
    have hany : st.participants.any (kickTarget sessionId targetUserId) = false := by
      rw [List.any_eq_false]
      intro p hp
      have := hnone p hp
      simp only [kickTarget, Bool.and_eq_true, beq_iff_eq, Option.isNone_iff_eq_none]
      intro hcontra
      exact this ⟨hcontra.1.1, hcontra.1.2, hcontra.2⟩
    simp [kickParticipant, ensureSessionExistsWithOwner, hfind, howner, hself, hany]

/-- Concrete witness for C4: the creator kicks a present, non-kicked
student and the call succeeds. -/
theorem kickParticipant_spec_witness :
    (kickParticipant
        ⟨[⟨"s1", "T", "live", none, none, "m", none, "ic", true, true, true, []⟩],
         [⟨"s1", "u", "student", true, true, 0, none⟩], [], []⟩
        "m" "s1" "u" 7).1 = .ok true := by
  have h := (kickParticipant_spec
      ⟨[⟨"s1", "T", "live", none, none, "m", none, "ic", true, true, true, []⟩],
       [⟨"s1", "u", "student", true, true, 0, none⟩], [], []⟩
      "m" "s1" "u" 7 ⟨"s1", "T", "live", none, none, "m", none, "ic", true, true, true, []⟩
      (by decide)).2.2.1
      ⟨"s1", "u", "student", true, true, 0, none⟩ rfl (by decide) (by decide) rfl rfl rfl
  exact h.1

/-- Counterexample for C5 as stated: with the session present but owned by
`alice`, a non-owner caller supplying a non-empty patch is rejected with
classification 404 (ownership is folded into the store-level filter and
surfaces as not-found), not 403. -/
theorem updateSessionSettings_not_owner_404 :
    (updateSessionSettings
        ⟨[⟨"s1", "T", "live", none, none, "alice", none, "ic", true, true, true, []⟩], [], [], []⟩
        "bob" "s1"
        ⟨some "New", none, none, none, none, none, none, none, none⟩).1 =
      .error ⟨404, "Session not found or you do not have permission to update it"⟩ := rfl

/-- C5 amended: `updateSessionSettings` fails 400 before any store write
when the patch has no supplied field; fails 404 (not 403) when no session
row passes the id-plus-ownership filter; and on success applies exactly the
supplied fields to the found session, leaving every omitted field (and the
id, creator and invite code) unchanged. -/
theorem updateSessionSettings_spec (st : Store) (mentorId sessionId : String)
    (updates : SessionUpdateInput) :
    ((buildSessionPatch updates).isEmpty = true →
      updateSessionSettings st mentorId sessionId updates =
        (.error ⟨400, "No updates were provided"⟩, st))
    ∧ ((buildSessionPatch updates).isEmpty = false →
      st.sessions.find? (fun s => s.id == sessionId && s.created_by == mentorId) = none →
      updateSessionSettings st mentorId sessionId updates =
        (.error ⟨404, "Session not found or you do not have permission to update it"⟩, st))
    ∧ (∀ s, (buildSessionPatch updates).isEmpty = false →
        st.sessions.find? (fun t => t.id == sessionId && t.created_by == mentorId) = some s →
        ∃ s2, (updateSessionSettings st mentorId sessionId updates).1 = .ok s2
          ∧ s2 ∈ (updateSessionSettings st mentorId sessionId updates).2.sessions
          ∧ (updates.title = none → s2.title = s.title)
          ∧ (∀ v, updates.title = some v → s2.title = v)
          ∧ (updates.summary = none → s2.summary = s.summary)
          ∧ (∀ v, updates.summary = some v → s2.summary = v)
          ∧ (updates.scheduled_at = none → s2.scheduled_at = s.scheduled_at)
          ∧ (∀ v, updates.scheduled_at = some v → s2.scheduled_at = v)
          ∧ (updates.duration_minutes = none → s2.duration_minutes = s.duration_minutes)
          ∧ (∀ v, updates.duration_minutes = some v → s2.duration_minutes = v)
          ∧ (updates.status = none → s2.status = s.status)
          ∧ (∀ v, updates.status = some v → s2.status = v)
          ∧ (updates.allow_collab = none → s2.allow_collab = s.allow_collab)
          ∧ (∀ v, updates.allow_collab = some v → s2.allow_collab = v)
          ∧ (updates.allow_chat = none → s2.allow_chat = s.allow_chat)
          ∧ (∀ v, updates.allow_chat = some v → s2.allow_chat = v)
          ∧ (updates.allow_video = none → s2.allow_video = s.allow_video)
          ∧ (∀ v, updates.allow_video = some v → s2.allow_video = v)
          ∧ (updates.metadata = none → s2.metadata = s.metadata)
          ∧ (∀ v, updates.metadata = some v → s2.metadata = sanitizeMetadata v)
          ∧ s2.id = s.id ∧ s2.created_by = s.created_by ∧ s2.invite_code = s.invite_code) := by
  refine ⟨?_, ?_, ?_⟩
  · intro hempty
    simp [updateSessionSettings, hempty]
  · intro hempty hfind
    simp [updateSessionSettings, hempty, hfind]
  · intro s hempty hfind
    have hres : updateSessionSettings st mentorId sessionId updates =
        (.ok (applySessionPatch s (buildSessionPatch updates)),
          { st with sessions := st.sessions.map (fun t =>
              if t.id == sessionId && t.created_by == mentorId then
                applySessionPatch t (buildSessionPatch updates)
              else t) }) := by
      simp [updateSessionSettings, hempty, hfind]
    refine ⟨applySessionPatch s (buildSessionPatch updates), by rw [hres], ?_, ?_⟩
    · rw [hres]
      have hmem : s ∈ st.sessions := List.mem_of_find?_eq_some hfind
      have hpred := List.find?_some hfind
      have heq : applySessionPatch s (buildSessionPatch updates)
          = (fun t => if t.id == sessionId && t.created_by == mentorId then
              applySessionPatch t (buildSessionPatch updates)
            else t) s := by
        simp [hpred]
      rw [heq]
      exact List.mem_map_of_mem _ hmem
    · refine ⟨?_, ?_, ?_, ?_, ?_, ?_, ?_, ?_, ?_, ?_, ?_, ?_, ?_, ?_, ?_, ?_, ?_, ?_, ?_, ?_, ?_⟩ <;>
        first
        | (intro h; simp [applySessionPatch, buildSessionPatch, h])
        | (intro v h; simp [applySessionPatch, buildSessionPatch, h])
        | simp [applySessionPatch, buildSessionPatch]

/-- Concrete witness for C5 (amended): a patch supplying only the title
updates the title and leaves the status untouched. -/
theorem updateSessionSettings_spec_witness :
    ∃ s2, (updateSessionSettings
        ⟨[⟨"s1", "T", "live", none, none, "m", none, "ic", true, true, true, []⟩], [], [], []⟩
        "m" "s1" ⟨some "New", none, none, none, none, none, none, none, none⟩).1 = .ok s2
      ∧ s2.title = "New" ∧ s2.status = "live" := by
  have h := ((updateSessionSettings_spec
      ⟨[⟨"s1", "T", "live", none, none, "m", none, "ic", true, true, true, []⟩], [], [], []⟩
      "m" "s1" ⟨some "New", none, none, none, none, none, none, none, none⟩).2.2
      ⟨"s1", "T", "live", none, none, "m", none, "ic", true, true, true, []⟩
      (by decide) (by decide))
  obtain ⟨s2, hok, -, -, htitle, -, -, -, -, -, -, hstatus, -⟩ := h
  exact ⟨s2, hok, htitle "New" rfl, hstatus rfl⟩

/-- C9: `updateParticipantPermissions` never checks the kicked status of the
target: called by the session owner with at least one flag supplied, it
succeeds on a kicked participant row, applies exactly the supplied flags
(so a flag that kicking forced to false can be turned back on), and leaves
`kicked_at` and `role` unchanged. -/
theorem updateParticipantPermissions_kicked (st : Store)
    (mentorId sessionId targetUserId : String) (changes : PermissionChanges)
    (session : Session) (p : Participant) (t : Nat)
    (hfind : st.sessions.find? (fun s => s.id == sessionId) = some session)
    (howner : session.created_by = mentorId)
    (hp : findParticipant st sessionId targetUserId = some p)
    (hkick : p.kicked_at = some t)
    (hch : (changes.can_edit.isNone && changes.can_share_screen.isNone) = false) :
    ∃ q, (updateParticipantPermissions st mentorId sessionId targetUserId changes).1 = .ok q
      ∧ q ∈ (updateParticipantPermissions st mentorId sessionId targetUserId changes).2.participants
      ∧ q.can_edit = changes.can_edit.getD p.can_edit
      ∧ q.can_share_screen = changes.can_share_screen.getD p.can_share_screen
      ∧ q.kicked_at = some t
      ∧ q.role = p.role
      ∧ q.session_id = p.session_id
      ∧ q.user_id = p.user_id := by
  have hres : updateParticipantPermissions st mentorId sessionId targetUserId changes =
      (.ok (permPatchRow changes p),
        { st with participants := st.participants.map (fun q =>
            if q.session_id == sessionId && q.user_id == targetUserId then
              permPatchRow changes q
            else q) }) := by
    simp [updateParticipantPermissions, ensureSessionExistsWithOwner, hfind, howner, hch, hp]
  refine ⟨permPatchRow changes p, by rw [hres], ?_, rfl, rfl, ?_, rfl, rfl, rfl⟩
  · rw [hres]
    have hmem : p ∈ st.participants := List.mem_of_find?_eq_some hp
    have hpred := List.find?_some hp
    have heq : permPatchRow changes p
        = (fun q => if q.session_id == sessionId && q.user_id == targetUserId then
            permPatchRow changes q
          else q) p := by
      simp [hpred]
    rw [heq]
    exact List.mem_map_of_mem _ hmem
  · show (permPatchRow changes p).kicked_at = some t
    simpa [permPatchRow] using hkick

/-- Concrete witness for C9: the owner re-enables `can_edit` on a kicked
participant; the stored row keeps `kicked_at` set while `can_edit` is true
again. -/
theorem updateParticipantPermissions_kicked_witness :
    ∃ q, (updateParticipantPermissions
        ⟨[⟨"s1", "T", "live", none, none, "m", none, "ic", true, true, true, []⟩],
         [⟨"s1", "u", "student", false, false, 0, some 3⟩], [], []⟩
        "m" "s1" "u" ⟨some true, none⟩).1 = .ok q
      ∧ q.can_edit = true ∧ q.kicked_at = some 3 := by
  have h := updateParticipantPermissions_kicked
    ⟨[⟨"s1", "T", "live", none, none, "m", none, "ic", true, true, true, []⟩],
     [⟨"s1", "u", "student", false, false, 0, some 3⟩], [], []⟩
    "m" "s1" "u" ⟨some true, none⟩
    ⟨"s1", "T", "live", none, none, "m", none, "ic", true, true, true, []⟩
    ⟨"s1", "u", "student", false, false, 0, some 3⟩ 3
    (by decide) rfl (by decide) rfl (by decide)
  obtain ⟨q, hok, -, hedit, -, hk, -⟩ := h
  exact ⟨q, hok, hedit.trans rfl, hk⟩

/-- C6 (settles the claim against the code): on the javascript path, when
the source file write succeeds the ephemeral directory is removed on every
exit of the toolchain (resolve, non-zero exit, timeout alike — all outcomes
`out`); but when `fs.writeFile` faults inside `createTempFile` — after
`mkdtemp` has created the directory — the fault propagates past the
per-language finally (not yet entered) and `executeCode`'s own finally
guards on a `filePath` variable that is never assigned, so the directory
survives the call: the claimed unconditional cleanup does not hold. -/
theorem executeCode_cleanup (fs : FsState) (code : String) (out : ExecOutcome)
    (elapsed : Nat) (d : String) (hd : d ∉ fs.dirs) :
    (executeCode fs code "javascript" ⟨d, false, out, out, elapsed⟩).2 = fs
    ∧ d ∈ (executeCode fs code "javascript" ⟨d, true, out, out, elapsed⟩).2.dirs := by
  have hfilter : (fs.dirs ++ [d]).filter (fun x => x != d) = fs.dirs := by
    rw [List.filter_append]
    have h1 : fs.dirs.filter (fun x => x != d) = fs.dirs :=
      List.filter_eq_self.mpr (fun x hx => by
        simp only [bne_iff_ne, ne_eq, decide_eq_true_eq]
        exact fun he => hd (he ▸ hx))
    simp [h1]
  constructor
  · show (⟨(fs.dirs ++ [d]).filter (fun x => x != d)⟩ : FsState) = fs
    rw [hfilter]
  · show d ∈ fs.dirs ++ [d]
    simp

/-- Witness for C6 at a concrete invocation: a write fault on the javascript
path leaves the freshly created directory behind when `executeCode`
returns. -/
theorem executeCode_cleanup_witness :
    "d" ∈ (executeCode ⟨[]⟩ "x" "javascript"
        ⟨"d", true, .success "" "", .success "" "", 0⟩).2.dirs :=
  (executeCode_cleanup ⟨[]⟩ "x" (.success "" "") 0 "d" (by simp)).2

/-- C7: for every language whose lower-casing is outside the dispatch table,
`executeCode` returns a result with empty output and a non-empty descriptive
error, leaves the filesystem untouched, and consults no toolchain or fault
oracle (the result is the same under any environment with the same clock) —
and, the model being total, no fault is ever propagated to the caller. -/
theorem executeCode_unsupported (fs : FsState) (code language : String) (env : ExecEnv)
    (h : lowerString language ∉ supportedLanguages) :
    executeCode fs code language env =
      ({ output := ""
         error := some ("Language \"" ++ language ++ "\" is not supported for execution")
         executionTime := env.elapsed }, fs)
    ∧ ("Language \"" ++ language ++ "\" is not supported for execution") ≠ ""
    ∧ (∀ env2 : ExecEnv, env2.elapsed = env.elapsed →
        executeCode fs code language env2 = executeCode fs code language env) := by
  simp only [supportedLanguages, List.mem_cons, List.not_mem_nil, or_false, not_or] at h
  obtain ⟨h1, h2, h3, h4, h5, h6, h7⟩ := h
  refine ⟨?_, ?_, ?_⟩
  · simp [executeCode, h1, h2, h3, h4, h5, h6, h7]
  · intro hcontra
    have hlen := congrArg String.length hcontra
    simp [String.length_append] at hlen
    exact absurd hlen.1.1 (by decide)
  · intro env2 helapsed
    simp [executeCode, h1, h2, h3, h4, h5, h6, h7, helapsed]

/-- Witness for C7: the language `unsupported-x` yields empty output, the
descriptive error and an untouched filesystem. -/
theorem executeCode_unsupported_witness :
    executeCode ⟨[]⟩ "x" "unsupported-x" ⟨"d", false, .success "" "", .success "" "", 0⟩ =
      ({ output := ""
         error := some "Language \"unsupported-x\" is not supported for execution"
         executionTime := 0 }, ⟨[]⟩) :=
  (executeCode_unsupported ⟨[]⟩ "x" "unsupported-x"
    ⟨"d", false, .success "" "", .success "" "", 0⟩ (by decide)).1

theorem addSessionMessage_ok (st : Store) (sessionId userId content : String)
    (insertFails : Bool) (st1 : Store)
    (h : addSessionMessage st sessionId userId content insertFails = (.ok (), st1)) :
    (⟨sessionId, userId, content⟩ : Message) ∈ st1.messages ∧ insertFails = false := by
  unfold addSessionMessage at h
  rcases hens : ensureSessionParticipant st userId sessionId with ⟨res, st2⟩
  rcases res with e | p
  · rw [hens] at h
    dsimp only at h
    cases h
  · rw [hens] at h
    dsimp only at h
    by_cases hf : insertFails = true
    · rw [if_pos hf] at h
      cases h
    · rw [if_neg hf] at h
      have hst2 : st2 = st := by
        have := (ensureSessionParticipant_spec st userId sessionId).1
        rw [hens] at this
        exact this
      cases h
      refine ⟨?_, by simpa using hf⟩
      simp

theorem addSessionMessage_insertFails (st : Store) (sessionId userId content : String) :
    ∃ e, addSessionMessage st sessionId userId content true = (.error e, st) := by
  unfold addSessionMessage
  rcases hens : ensureSessionParticipant st userId sessionId with ⟨res, st2⟩
  have hst2 : st2 = st := by
    have := (ensureSessionParticipant_spec st userId sessionId).1
    rw [hens] at this
    exact this
  subst hst2
  rcases res with e | p
  · exact ⟨e, rfl⟩
  · exact ⟨⟨500, "Unable to store message"⟩, rfl⟩

theorem addCodeSnapshot_insertFails (st : Store) (sessionId userId code language : String) :
    ∃ e, addCodeSnapshot st sessionId userId code language true = (.error e, st) := by
  unfold addCodeSnapshot
  rcases hens : ensureSessionParticipant st userId sessionId with ⟨res, st2⟩
  have hst2 : st2 = st := by
    have := (ensureSessionParticipant_spec st userId sessionId).1
    rw [hens] at this
    exact this
  subst hst2
  rcases res with e | p
  · exact ⟨e, rfl⟩
  · exact ⟨⟨500, "Unable to store code snapshot"⟩, rfl⟩

theorem addCodeSnapshot_ok (st : Store) (sessionId userId code language : String)
    (insertFails : Bool) (st1 : Store)
    (h : addCodeSnapshot st sessionId userId code language insertFails = (.ok (), st1)) :
    (⟨sessionId, userId, language, code⟩ : CodeSnapshot) ∈ st1.snapshots
      ∧ insertFails = false := by
  unfold addCodeSnapshot at h
  rcases hens : ensureSessionParticipant st userId sessionId with ⟨res, st2⟩
  rcases res with e | p
  · rw [hens] at h
    dsimp only at h
    cases h
  · rw [hens] at h
    dsimp only at h
    by_cases hf : insertFails = true
    · rw [if_pos hf] at h
      cases h
    · rw [if_neg hf] at h
      cases h
      refine ⟨?_, by simpa using hf⟩
      simp

/-- C8: for the chat:message and code:update handlers, persistence precedes
visibility.  Every broadcast the chat handler emits corresponds to a message
row present in the resulting store, and every broadcast the code handler
emits corresponds to a snapshot row present in the resulting store (with the
stored language the javascript-defaulted one); when the repository insert
fails the handler broadcasts nothing, acknowledges failure to the sender,
emits a sender-only error event and leaves the store unchanged; and more
generally a failure acknowledgement is never accompanied by a broadcast. -/
theorem durability_precedes_broadcast (conn : SocketState) (st : Store)
    (chatP : ChatPayload) (codeP : CodePayload) (insertFails : Bool)
    (nowMs : Nat) (nowIso : String) :
    (∀ b ∈ (chatMessageHandler conn st chatP insertFails nowMs nowIso).broadcasts,
      (⟨b.sessionId, b.authorId, b.text⟩ : Message)
        ∈ (chatMessageHandler conn st chatP insertFails nowMs nowIso).store.messages)
    ∧ (insertFails = true →
        (chatMessageHandler conn st chatP insertFails nowMs nowIso).broadcasts = []
        ∧ (chatMessageHandler conn st chatP insertFails nowMs nowIso).ack.ok = false
        ∧ (chatMessageHandler conn st chatP insertFails nowMs nowIso).senderErrors ≠ []
        ∧ (chatMessageHandler conn st chatP insertFails nowMs nowIso).store = st)
    ∧ ((chatMessageHandler conn st chatP insertFails nowMs nowIso).ack.ok = false →
        (chatMessageHandler conn st chatP insertFails nowMs nowIso).broadcasts = [])
    ∧ (∀ b ∈ (codeUpdateHandler conn st codeP insertFails nowIso).broadcasts,
      (⟨b.sessionId, b.authorId, b.language.getD "javascript", b.code⟩ : CodeSnapshot)
        ∈ (codeUpdateHandler conn st codeP insertFails nowIso).store.snapshots)
    ∧ (insertFails = true →
        (codeUpdateHandler conn st codeP insertFails nowIso).broadcasts = []
        ∧ (codeUpdateHandler conn st codeP insertFails nowIso).ack.ok = false
        ∧ (codeUpdateHandler conn st codeP insertFails nowIso).senderErrors ≠ []
        ∧ (codeUpdateHandler conn st codeP insertFails nowIso).store = st)
    ∧ ((codeUpdateHandler conn st codeP insertFails nowIso).ack.ok = false →
        (codeUpdateHandler conn st codeP insertFails nowIso).broadcasts = []) := by
  refine ⟨?_, ?_, ?_, ?_, ?_, ?_⟩
  · intro b hb
    rcases hsid : conn.sessionId with _ | sessionId
    · simp [chatMessageHandler, chatFail, hsid] at hb
    · rcases htext : chatP.text with _ | text
      · simp [chatMessageHandler, chatFail, hsid, htext] at hb
      · by_cases hempty : (text == "") = true
        · simp [chatMessageHandler, chatFail, hsid, htext, hempty] at hb
        · rcases hadd : addSessionMessage st sessionId conn.user.id text insertFails with ⟨res, st1⟩
          rcases res with e | u
          · simp [chatMessageHandler, chatFail, hsid, htext, hempty, hadd] at hb
          · cases u
            obtain ⟨hmem, -⟩ :=
              addSessionMessage_ok st sessionId conn.user.id text insertFails st1 hadd
            have heq : chatMessageHandler conn st chatP insertFails nowMs nowIso =
                { ack := ⟨true, none⟩
                  store := st1
                  broadcasts := [{ room := "session:" ++ sessionId
                                   excludeSender := false
                                   id := chatP.id.getD (toString nowMs)
                                   text := text
                                   time := chatP.time.getD nowIso
                                   authorId := conn.user.id
                                   authorName := conn.user.displayName
                                   sessionId := sessionId }]
                  senderErrors := [] } := by
              simp [chatMessageHandler, hsid, htext, hempty, hadd]
            rw [heq] at hb ⊢
            rw [List.mem_singleton] at hb
            subst hb
            simpa using hmem
  · intro hf
    subst hf
    rcases hsid : conn.sessionId with _ | sessionId
    · simp [chatMessageHandler, chatFail, hsid]
    · rcases htext : chatP.text with _ | text
      · simp [chatMessageHandler, chatFail, hsid, htext]
      · by_cases hempty : (text == "") = true
        · simp [chatMessageHandler, chatFail, hsid, htext, hempty]
        · obtain ⟨e, hadd⟩ := addSessionMessage_insertFails st sessionId conn.user.id text
          simp [chatMessageHandler, chatFail, hsid, htext, hempty, hadd]
  · intro hack
    rcases hsid : conn.sessionId with _ | sessionId
    · simp [chatMessageHandler, chatFail, hsid]
    · rcases htext : chatP.text with _ | text
      · simp [chatMessageHandler, chatFail, hsid, htext]
      · by_cases hempty : (text == "") = true
        · simp [chatMessageHandler, chatFail, hsid, htext, hempty]
        · rcases hadd : addSessionMessage st sessionId conn.user.id text insertFails with ⟨res, st1⟩
          rcases res with e | u
          · simp [chatMessageHandler, chatFail, hsid, htext, hempty, hadd]
          · cases u
            simp [chatMessageHandler, hsid, htext, hempty, hadd] at hack
  · intro b hb
    rcases hsid : conn.sessionId with _ | sessionId
    · simp [codeUpdateHandler, codeFail, hsid] at hb
    · rcases hcode : codeP.code with _ | code
      · simp [codeUpdateHandler, codeFail, hsid, hcode] at hb
      · by_cases hempty : (code == "") = true
        · simp [codeUpdateHandler, codeFail, hsid, hcode, hempty] at hb
        · rcases hadd : addCodeSnapshot st sessionId conn.user.id code
              (codeP.language.getD "javascript") insertFails with ⟨res, st1⟩
          rcases res with e | u
          · simp [codeUpdateHandler, codeFail, hsid, hcode, hempty, hadd] at hb
          · cases u
            obtain ⟨hmem, -⟩ := addCodeSnapshot_ok st sessionId conn.user.id code
              (codeP.language.getD "javascript") insertFails st1 hadd
            have heq : codeUpdateHandler conn st codeP insertFails nowIso =
                { ack := ⟨true, none⟩
                  store := st1
                  broadcasts := [{ room := "session:" ++ sessionId
                                   excludeSender := false
                                   code := code
                                   language := codeP.language
                                   sessionId := sessionId
                                   authorId := conn.user.id
                                   updatedAt := nowIso }]
                  senderErrors := [] } := by
              simp [codeUpdateHandler, hsid, hcode, hempty, hadd]
            rw [heq] at hb ⊢
            rw [List.mem_singleton] at hb
            subst hb
            simpa using hmem
  · intro hf
    subst hf
    rcases hsid : conn.sessionId with _ | sessionId
    · simp [codeUpdateHandler, codeFail, hsid]
    · rcases hcode : codeP.code with _ | code
      · simp [codeUpdateHandler, codeFail, hsid, hcode]
      · by_cases hempty : (code == "") = true
        · simp [codeUpdateHandler, codeFail, hsid, hcode, hempty]
        · obtain ⟨e, hadd⟩ := addCodeSnapshot_insertFails st sessionId conn.user.id code
            (codeP.language.getD "javascript")
          simp [codeUpdateHandler, codeFail, hsid, hcode, hempty, hadd]
  · intro hack
    rcases hsid : conn.sessionId with _ | sessionId
    · simp [codeUpdateHandler, codeFail, hsid]
    · rcases hcode : codeP.code with _ | code
      · simp [codeUpdateHandler, codeFail, hsid, hcode]
      · by_cases hempty : (code == "") = true
        · simp [codeUpdateHandler, codeFail, hsid, hcode, hempty]
        · rcases hadd : addCodeSnapshot st sessionId conn.user.id code
              (codeP.language.getD "javascript") insertFails with ⟨res, st1⟩
          rcases res with e | u
          · simp [codeUpdateHandler, codeFail, hsid, hcode, hempty, hadd]
          · cases u
            simp [codeUpdateHandler, hsid, hcode, hempty, hadd] at hack

/-- Concrete witness for C8: with a failing message insert, a joined,
admitted sender gets a failure acknowledgement and the room receives
nothing. -/
theorem durability_precedes_broadcast_witness :
    (chatMessageHandler ⟨⟨"u", "e", none⟩, some "s1"⟩
        ⟨[], [⟨"s1", "u", "student", true, true, 0, none⟩], [], []⟩
        ⟨none, some "hi", none⟩ true 0 "t").broadcasts = []
    ∧ (chatMessageHandler ⟨⟨"u", "e", none⟩, some "s1"⟩
        ⟨[], [⟨"s1", "u", "student", true, true, 0, none⟩], [], []⟩
        ⟨none, some "hi", none⟩ true 0 "t").ack.ok = false := by
  have h := (durability_precedes_broadcast ⟨⟨"u", "e", none⟩, some "s1"⟩
      ⟨[], [⟨"s1", "u", "student", true, true, 0, none⟩], [], []⟩
      ⟨none, some "hi", none⟩ ⟨some "x", some "js"⟩ true 0 "t").2.1 rfl
  exact ⟨h.1, h.2.1⟩

/-- C10: whenever the connection's current-session slot holds a session id
and the code payload is non-empty, the code:run handler acknowledges ok,
changes no repository state, emits no error, and broadcasts exactly one
code:run-result — to the whole room, sender included (`excludeSender` is
false) — carrying the sandbox result; and its acknowledgement and broadcast
are independent of the store, so no participant or kicked re-check happens
(the theorem holds for every store, including one whose only row for the
user is kicked). -/
theorem codeRunHandler_spec (conn : SocketState) (st : Store) (payload : CodePayload)
    (fs : FsState) (env : ExecEnv) (nowMs : Nat) (nowIso : String)
    (sessionId code : String)
    (hsid : conn.sessionId = some sessionId)
    (hcode : payload.code = some code) (hne : code ≠ "") :
    (codeRunHandler conn st payload fs env nowMs nowIso).ack = ⟨true, none⟩
    ∧ (codeRunHandler conn st payload fs env nowMs nowIso).store = st
    ∧ (codeRunHandler conn st payload fs env nowMs nowIso).senderErrors = []
    ∧ (codeRunHandler conn st payload fs env nowMs nowIso).broadcasts =
        [{ room := "session:" ++ sessionId
           excludeSender := false
           id := "run-" ++ toString nowMs
           language := lowerString (payload.language.getD "javascript")
           output := (executeCode fs code (lowerString (payload.language.getD "javascript")) env).1.output
           error := (executeCode fs code (lowerString (payload.language.getD "javascript")) env).1.error
           executionTime := (executeCode fs code (lowerString (payload.language.getD "javascript")) env).1.executionTime
           authorId := conn.user.id
           authorName := conn.user.displayName
           time := nowIso }]
    ∧ (∀ st2 : Store,
        (codeRunHandler conn st2 payload fs env nowMs nowIso).broadcasts =
          (codeRunHandler conn st payload fs env nowMs nowIso).broadcasts
        ∧ (codeRunHandler conn st2 payload fs env nowMs nowIso).ack =
          (codeRunHandler conn st payload fs env nowMs nowIso).ack) := by
  refine ⟨?_, ?_, ?_, ?_, ?_⟩ <;> simp [codeRunHandler, hsid, hcode, hne]

/-- Concrete witness for C10: a connection whose slot still records the
session runs code and gets an ok acknowledgement even though the only
participant row for the user is kicked; the store is untouched. -/
theorem codeRunHandler_spec_witness :
    (codeRunHandler ⟨⟨"u", "e", none⟩, some "s1"⟩
        ⟨[], [⟨"s1", "u", "student", false, false, 0, some 3⟩], [], []⟩
        ⟨some "1+1", some "wat"⟩ ⟨[]⟩ ⟨"d", false, .success "" "", .success "" "", 0⟩
        9 "t").ack = ⟨true, none⟩
    ∧ (codeRunHandler ⟨⟨"u", "e", none⟩, some "s1"⟩
        ⟨[], [⟨"s1", "u", "student", false, false, 0, some 3⟩], [], []⟩
        ⟨some "1+1", some "wat"⟩ ⟨[]⟩ ⟨"d", false, .success "" "", .success "" "", 0⟩
        9 "t").store =
      ⟨[], [⟨"s1", "u", "student", false, false, 0, some 3⟩], [], []⟩ := by
  have h := codeRunHandler_spec ⟨⟨"u", "e", none⟩, some "s1"⟩
    ⟨[], [⟨"s1", "u", "student", false, false, 0, some 3⟩], [], []⟩
    ⟨some "1+1", some "wat"⟩ ⟨[]⟩ ⟨"d", false, .success "" "", .success "" "", 0⟩
    9 "t" "s1" "1+1" rfl rfl (by decide)
  exact ⟨h.1, h.2.1⟩

end OneWise
